import Mathlib

/-!
# ConfigManager: a shallow embedding of `src/ConfigManager.cpp`

The device code is translated function by function.  Device state is passed
explicitly (`Machine`); every call into the platform (EEPROM, WiFi, web server,
`ESP.restart`, `delay`) is recorded, in program order, as an `Event` of the
machine's trace.  Of the `Serial` log only the fixed messages of `setup` and
`wifiConnected` are recorded; formatted diagnostics are left out.  Bytes are
`Fin 256`; Arduino `String` values are byte lists, whose length is `length()` and
whose bytes followed by a terminator are what `c_str()` points to.
-/

set_option autoImplicit false

namespace ConfigManager

/-! ## Bytes, strings, constants -/

/-- One `byte` / `char` of the target. -/
abbrev Byte := Fin 256

/-- Contents of an Arduino `String` (the characters, without the terminator). -/
abbrev Str := List Byte

/-- A source-code string literal as bytes. -/
def lit (s : String) : Str := s.toList.map (fun c => Fin.ofNat c.toNat)

def MAJORVERSION : Byte := 0
def MINORVERSION : Byte := 2

def SSID_LENGTH : Nat := 32
def SSID_PWD_LENGTH : Nat := 64
def HOSTNAME_LENGTH : Nat := 32

def DNS_PORT : Nat := 53

/-- An `IPAddress`: four octets. -/
structure IPAddress where
  a : Byte
  b : Byte
  c : Byte
  d : Byte
deriving DecidableEq, Repr

def DNS_IP : IPAddress := ⟨192, 168, 1, 1⟩

/-- The bytes of `struct magicHeaderT` with its default member initialisers:
`{ 'C', 'M' }`, `MAJORVERSION`, `MINORVERSION`. -/
def magicHeader : List Byte := [67, 77, MAJORVERSION, MINORVERSION]

/-- The value of `sizeof(magicHeader)`: two `char`s and two `byte`s. -/
def sizeofMagicHeader : Nat := 4

/-- The value of `sizeof(WifiDetails)`: `ssid[32]`, `password[64]`, `hostname[32]`. -/
def sizeofWifiDetails : Nat := SSID_LENGTH + SSID_PWD_LENGTH + HOSTNAME_LENGTH

def mimeHTML : Str := lit "text/html"
def mimeJSON : Str := lit "application/json"
def mimePlain : Str := lit "text/plain"

/-- The device modes of `enum Mode`. -/
inductive Mode
  | ap
  | api
deriving DecidableEq, Repr

/-- The visibility of a parameter, `enum ParameterMode`. -/
inductive ParameterMode
  | get
  | set
  | both
deriving DecidableEq, Repr

/-! ## C library and Arduino core functions used by the source -/

/-- C `strncpy(dst, src, n)` as the `n` bytes it leaves in `dst`: characters of
`src` are copied until `n` bytes are written or a NUL is met; if a NUL (or the
end of the string, where the terminator sits) comes first, the rest of the `n`
bytes is filled with NUL.  No terminator is added when `src` has `n` or more
characters. -/
def strncpy : Nat → Str → List Byte
  | 0, _ => []
  | n + 1, [] => 0 :: strncpy n []
  | n + 1, c :: cs => if c = 0 then 0 :: strncpy n [] else c :: strncpy n cs

/-- A C string read from memory: the bytes before the first NUL.  Memory that the
model does not hold (past the end of `mem`) is not read. -/
def cstr (mem : List Byte) : Str := mem.takeWhile (fun c => c ≠ 0)

/-- Decimal text of a number below 1000, as `IPAddress::toString` prints an octet. -/
def decimal (n : Nat) : Str :=
  if n < 10 then [Fin.ofNat (48 + n)]
  else if n < 100 then [Fin.ofNat (48 + n / 10), Fin.ofNat (48 + n % 10)]
  else [Fin.ofNat (48 + n / 100), Fin.ofNat (48 + n / 10 % 10), Fin.ofNat (48 + n % 10)]

/-- The dotted text of `IPAddress::toString()`. -/
def IPAddress.toString (ip : IPAddress) : Str :=
  decimal ip.a.val ++ [46] ++ decimal ip.b.val ++ [46] ++ decimal ip.c.val ++ [46]
    ++ decimal ip.d.val

/-- The scanning loop of the Arduino core's `IPAddress::fromString` for dotted
IPv4 text: `acc` is the octet being read, `dots` the number of dots seen. -/
def fromString4 : Str → Nat → Nat → Bool
  | [], _, dots => dots == 3
  | c :: cs, acc, dots =>
    if 48 ≤ c.val ∧ c.val ≤ 57 then
      let acc1 := acc * 10 + (c.val - 48)
      if acc1 > 255 then false else fromString4 cs acc1 dots
    else if c.val = 46 then
      if dots = 3 then false else fromString4 cs 0 (dots + 1)
    else false

/-- The test `IPAddress().isValid(s)`: does the C string of `s` parse as an IP address. -/
def IPAddress.isValid (s : Str) : Bool := fromString4 (cstr s) 0 0

/-- Upper-case hexadecimal digit. -/
def hexDigit (d : Nat) : Byte := if d < 10 then Fin.ofNat (48 + d) else Fin.ofNat (55 + d)

/-- Digits of `printf("%X")`, most significant first; `fuel` bounds the digit count. -/
def hexDigits : Nat → Nat → Str → Str
  | 0, _, acc => acc
  | fuel + 1, n, acc =>
    if n < 16 then hexDigit n :: acc else hexDigits fuel (n / 16) (hexDigit (n % 16) :: acc)

/-- Text of `printf("%0X", n)` for a `uint32_t`. -/
def formatHex (n : Nat) : Str := hexDigits 8 (n % 2 ^ 32) []

/-! ## The EEPROM library -/

/-- The `EEPROM` object: `data` is the RAM copy that `get`/`put`/`read`/`write`
work on, `flash` the persisted sector that `commit` overwrites with `data`.  Addresses
are taken to lie within the size passed to `EEPROM.begin`, which `ConfigManager.h` (not
among the sources) chooses. -/
structure EEPROMClass where
  data : Nat → Byte
  flash : Nat → Byte

namespace EEPROMClass

/-- Bytes fetched by `EEPROM.get(address, t)` for a `t` of `size` bytes. -/
def get (e : EEPROMClass) (address size : Nat) : List Byte :=
  (List.range size).map (fun i => e.data (address + i))

/-- Single byte fetched by `EEPROM.read(address)`. -/
def read (e : EEPROMClass) (address : Nat) : Byte := e.data address

/-- The effect of `EEPROM.put(address, t)` where `bytes` is the object representation of `t`. -/
def put (e : EEPROMClass) (address : Nat) (bytes : List Byte) : EEPROMClass :=
  { e with data := fun i =>
      if address ≤ i ∧ i < address + bytes.length then bytes.getD (i - address) 0 else e.data i }

/-- The effect of `EEPROM.write(address, b)`. -/
def write (e : EEPROMClass) (address : Nat) (b : Byte) : EEPROMClass :=
  { e with data := fun i => if i = address then b else e.data i }

/-- The effect of `EEPROM.commit()`. -/
def commit (e : EEPROMClass) : EEPROMClass := { e with flash := e.data }

/-- The persisted bytes `address .. address + size - 1`. -/
def stored (e : EEPROMClass) (address size : Nat) : List Byte :=
  (List.range size).map (fun i => e.flash (address + i))

end EEPROMClass

/-! ## ArduinoJson objects -/

/-- An ArduinoJson `JsonObject`: the `success()` flag and the members in insertion
order.  A member value is kept as the text that `get<String>` yields for it. -/
structure JsonObject where
  success : Bool
  members : List (Str × Str)
deriving DecidableEq, Repr

namespace JsonObject

/-- The object returned by `jsonBuffer.createObject()`: valid and empty. -/
def createObject : JsonObject := ⟨true, []⟩

/-- The result of `obj.containsKey(key)`. -/
def containsKey (obj : JsonObject) (key : Str) : Bool := (obj.members.lookup key).isSome

/-- The result of `obj.get<String>(key)`: the member, or the empty string when absent. -/
def get (obj : JsonObject) (key : Str) : Str := (obj.members.lookup key).getD []

/-- Members after `obj.set(key, value)`: an existing member is overwritten in place, a new one
is appended. -/
def setMembers (key value : Str) : List (Str × Str) → List (Str × Str)
  | [] => [(key, value)]
  | (k, v) :: rest => if k = key then (k, value) :: rest else (k, v) :: setMembers key value rest

/-- The effect of `obj.set(key, value)`. -/
def set (obj : JsonObject) (key value : Str) : JsonObject :=
  { obj with members := setMembers key value obj.members }

end JsonObject

/-- The two ArduinoJson text functions the source calls; the parser and the printer are
outside the repository and are taken as given. -/
structure ArduinoJson where
  /-- The result of `jsonBuffer.parseObject(text)`; `success = false` when `text` is not a
  JSON object. -/
  parseObject : Str → JsonObject
  /-- The text produced by `obj.printTo(body)`. -/
  printTo : JsonObject → Str

/-! ## Parameters, web server, device state -/

/-- A registered `BaseParameter*`: its mode, the value it guards, and its two virtual
methods.  `toJson` receives the current value and the object to extend; `fromJson`
receives the object and the current value and yields the new value. -/
structure BaseParameter (V : Type) where
  getMode : ParameterMode
  value : V
  toJson : V → JsonObject → JsonObject
  fromJson : JsonObject → V → V


inductive HTTPMethod
  | HTTP_GET
  | HTTP_POST
  | HTTP_PUT
deriving DecidableEq, Repr

/-- The member functions bound as request handlers. -/
inductive Handler
  | handleAPGet
  | handleAPPost
  | handleRESTGet
  | handleRESTPut
  | handleNotFound
deriving DecidableEq, Repr

/-- The `WebServer` object as configured by `startAP` / `startApi`. -/
structure WebServer where
  port : Nat
  headerKeys : List Str
  routes : List (Str × HTTPMethod × Handler)
  notFound : Option Handler
deriving DecidableEq, Repr

inductive WiFiMode
  | WIFI_STA
  | WIFI_AP
deriving DecidableEq, Repr

/-- Calls into the platform, recorded in program order. -/
inductive Event
  | serial (text : String)
  | eepromGet (address size : Nat)
  | eepromPut (address : Nat) (bytes : List Byte)
  | eepromRead (address : Nat)
  | eepromWrite (address : Nat) (b : Byte)
  | eepromCommit
  | printCallback (bytes : List Byte)
  | wifiHostname (name : Str)
  | wifiBegin (ssid : Str) (passphrase : Option Str)
  | wifiStatus
  | wifiMode (m : WiFiMode)
  | softAP (name password : Str)
  | softAPConfig (ip gateway mask : IPAddress)
  | dnsStart (port : Nat) (domain : Str) (ip : IPAddress)
  | apCallback
  | apiCallback
  | serverBegin
  | processNextRequest
  | handleClient
  | delay (ms : Int)
  | toJson (index : Nat)
  | fromJson (index : Nat)
  | sendHeader (name value : Str)
  | send (code : Nat) (contentType content : Str)
  | clientStop
  | restart
deriving DecidableEq, Repr

/-- The data members of `class ConfigManager` that the source file uses.  The class is declared
in `ConfigManager.h`, which is not among the sources; the types follow the use in the source
file: `apTimeout`, `wifiConnectRetries`, `wifiConnectInterval` are `int` (the setters take
`const int`), `apStart` holds a result of `millis()` (`unsigned long`), `config` is the
registered blob of `configSize` bytes. -/
structure State (V : Type) where
  mode : Mode
  apName : Str
  apPassword : Str
  apTimeout : Int
  apStart : Nat
  wifiConnectRetries : Int
  wifiConnectInterval : Int
  apCallback : Bool
  apiCallback : Bool
  printCallback : Bool
  dnsServer : Bool
  server : Option WebServer
  parameters : List (BaseParameter V)
  config : List Byte
  configSize : Nat

/-- The device: the `ConfigManager` object, the EEPROM, and the platform calls made so far. -/
structure Machine (V : Type) where
  cm : State V
  EEPROM : EEPROMClass
  trace : List Event

/-- The request being served, as the handlers query it. -/
structure Request where
  /-- Value of `server->header("Content-Type")`. -/
  contentType : Str
  /-- Value of `server->hostHeader()`. -/
  hostHeader : Str
  /-- Value of `server->arg(name)`. -/
  arg : Str → Str
  /-- Value of `server->client().localIP()`. -/
  localIP : IPAddress

namespace Machine

variable {V : Type}

def emit (m : Machine V) (e : Event) : Machine V := { m with trace := m.trace ++ [e] }

def eepromPut (m : Machine V) (address : Nat) (bytes : List Byte) : Machine V :=
  { m with EEPROM := m.EEPROM.put address bytes, trace := m.trace ++ [Event.eepromPut address bytes] }

def eepromWrite (m : Machine V) (address : Nat) (b : Byte) : Machine V :=
  { m with EEPROM := m.EEPROM.write address b, trace := m.trace ++ [Event.eepromWrite address b] }

def eepromCommit (m : Machine V) : Machine V :=
  { m with EEPROM := m.EEPROM.commit, trace := m.trace ++ [Event.eepromCommit] }

end Machine

/-! ## The member functions of `ConfigManager.cpp` -/

section Source

variable {V : Type}

/-- The assignment of `setAPTimeout`. -/
def setAPTimeout (timeout : Int) (m : Machine V) : Machine V :=
  { m with cm := { m.cm with apTimeout := timeout } }

/-- Conversion of an `int` to `unsigned long` (32 bits), as C applies it when the two are
compared. -/
def toUnsignedLong (x : Int) : Nat := (x % 2 ^ 32).toNat

/-- The value of `(millis() - apStart) / 1000` in 32-bit `unsigned long` arithmetic. -/
def elapsedSeconds (apStart millis : Nat) : Nat :=
  (millis % 2 ^ 32 + 2 ^ 32 - apStart % 2 ^ 32) % 2 ^ 32 / 1000

/-- The guard of the `if` in `loop`: `mode == ap && apTimeout > 0 &&
((millis() - apStart) / 1000) > apTimeout`. -/
def loopRestarts (millis : Nat) (m : Machine V) : Bool :=
  decide (m.cm.mode = Mode.ap) && decide (m.cm.apTimeout > 0)
    && decide (elapsedSeconds m.cm.apStart millis > toUnsignedLong m.cm.apTimeout)

/-- One pass of `ConfigManager::loop`, where `millis` is the value `millis()` returns.  The
source has no `return` after `ESP.restart()`, so the two service calls follow it here too. -/
def loop (millis : Nat) (m : Machine V) : Machine V :=
  let m := if loopRestarts millis m then m.emit Event.restart else m
  let m := if m.cm.dnsServer then m.emit Event.processNextRequest else m
  if m.cm.server.isSome then m.emit Event.handleClient else m

/-- The result of `ConfigManager::decodeJson`. -/
def decodeJson (lib : ArduinoJson) (jsonString : Str) : JsonObject :=
  if jsonString.length = 0 then JsonObject.createObject
  else
    let obj := lib.parseObject jsonString
    if !obj.success then JsonObject.createObject else obj

/-- The `for` loop of `writeConfig` from index `i` on: `EEPROM.write(CONFIG_OFFSET + i, ptr[i])`. -/
def writeConfigLoop (CONFIG_OFFSET : Nat) : Nat → Nat → Machine V → Machine V
  | 0, _, m => m
  | k + 1, i, m =>
    writeConfigLoop CONFIG_OFFSET k (i + 1) (m.eepromWrite (CONFIG_OFFSET + i) (m.cm.config.getD i 0))

/-- The body of `ConfigManager::writeConfig`. -/
def writeConfig (CONFIG_OFFSET : Nat) (m : Machine V) : Machine V :=
  let m := writeConfigLoop CONFIG_OFFSET m.cm.configSize 0 m
  let m := m.eepromCommit
  if m.cm.printCallback then m.emit (Event.printCallback m.cm.config) else m

/-- The `for` loop of `readConfig` from index `i` on: `ptr[i] = EEPROM.read(CONFIG_OFFSET + i)`. -/
def readConfigLoop (CONFIG_OFFSET : Nat) : Nat → Nat → Machine V → Machine V
  | 0, _, m => m
  | k + 1, i, m =>
    readConfigLoop CONFIG_OFFSET k (i + 1)
      { m with
        cm := { m.cm with config := m.cm.config.set i (m.EEPROM.read (CONFIG_OFFSET + i)) }
        trace := m.trace ++ [Event.eepromRead (CONFIG_OFFSET + i)] }

/-- The body of `ConfigManager::readConfig`. -/
def readConfig (CONFIG_OFFSET : Nat) (m : Machine V) : Machine V :=
  let m := readConfigLoop CONFIG_OFFSET m.cm.configSize 0 m
  if m.cm.printCallback then m.emit (Event.printCallback m.cm.config) else m

/-- The three strings `handleAPPost` takes from the request: from the decoded JSON body when
the content type is `application/json`, from the request arguments otherwise. -/
def handleAPPostFields (lib : ArduinoJson) (req : Request) : Str × Str × Str :=
  let isJson := decide (req.contentType = mimeJSON)
  if isJson then
    let obj := decodeJson lib (req.arg (lit "plain"))
    (obj.get (lit "ssid"), obj.get (lit "password"), obj.get (lit "hostname"))
  else
    (req.arg (lit "ssid"), req.arg (lit "password"), req.arg (lit "hostname"))

/-- The bytes of the local `WifiDetails wifiDetails` after the three `strncpy` calls. -/
def wifiDetailsBytes (ssid password hostname : Str) : List Byte :=
  strncpy SSID_LENGTH ssid ++ strncpy SSID_PWD_LENGTH password ++ strncpy HOSTNAME_LENGTH hostname

/-- The body of `ConfigManager::handleAPPost`. -/
def handleAPPost (lib : ArduinoJson) (req : Request) (m : Machine V) : Machine V :=
  let (ssid, password, hostname) := handleAPPostFields lib req
  if ssid.length = 0 ∨ hostname.length = 0 then
    m.emit (Event.send 400 mimePlain (lit "Invalid ssid or hostname."))
  else
    let wifiDetails := wifiDetailsBytes ssid password hostname
    let m := m.eepromPut 0 magicHeader
    let m := m.eepromPut sizeofMagicHeader wifiDetails
    let m := m.eepromCommit
    let m := m.emit (Event.send 204 mimePlain
      (lit "Saved. Will attempt to reboot and connect with new ssid and password."))
    let m := m.emit (Event.delay 1000)
    m.emit Event.restart

/-- The `for` loop of `handleRESTGet` over the parameters from position `i` on: the object
built, and the positions on which `toJson` was called. -/
def handleRESTGetLoop : List (BaseParameter V) → Nat → JsonObject → JsonObject × List Nat
  | [], _, obj => (obj, [])
  | p :: it, i, obj =>
    if p.getMode = ParameterMode.set then handleRESTGetLoop it (i + 1) obj
    else
      let r := handleRESTGetLoop it (i + 1) (p.toJson p.value obj)
      (r.1, i :: r.2)

/-- The object `handleRESTGet` has built when it prints it. -/
def exportedObject (m : Machine V) : JsonObject :=
  (handleRESTGetLoop m.cm.parameters 0 JsonObject.createObject).1

/-- The body of `ConfigManager::handleRESTGet`. -/
def handleRESTGet (lib : ArduinoJson) (m : Machine V) : Machine V :=
  let r := handleRESTGetLoop m.cm.parameters 0 JsonObject.createObject
  let m := { m with trace := m.trace ++ r.2.map Event.toJson }
  m.emit (Event.send 200 mimeJSON (lib.printTo r.1))

/-- The `for` loop of `handleRESTPut` over the parameters from position `i` on: the
parameters afterwards, and the positions on which `fromJson` was called. -/
def handleRESTPutLoop (obj : JsonObject) :
    List (BaseParameter V) → Nat → List (BaseParameter V) × List Nat
  | [], _ => ([], [])
  | p :: it, i =>
    let r := handleRESTPutLoop obj it (i + 1)
    if p.getMode = ParameterMode.get then (p :: r.1, r.2)
    else ({ p with value := p.fromJson obj p.value } :: r.1, i :: r.2)

/-- The body of `ConfigManager::handleRESTPut` from the test of `obj.success()` on, given the
decoded object `obj`. -/
def handleRESTPutObject (CONFIG_OFFSET : Nat) (obj : JsonObject) (m : Machine V) : Machine V :=
  if !obj.success then m.emit (Event.send 400 mimeJSON [])
  else
    let r := handleRESTPutLoop obj m.cm.parameters 0
    let m := { m with cm := { m.cm with parameters := r.1 }, trace := m.trace ++ r.2.map Event.fromJson }
    let m := writeConfig CONFIG_OFFSET m
    m.emit (Event.send 204 mimeJSON [])

/-- The body of `ConfigManager::handleRESTPut`. -/
def handleRESTPut (lib : ArduinoJson) (CONFIG_OFFSET : Nat) (req : Request) (m : Machine V) :
    Machine V :=
  handleRESTPutObject CONFIG_OFFSET (decodeJson lib (req.arg (lit "plain"))) m

/-- The body of `ConfigManager::handleNotFound`. -/
def handleNotFound (req : Request) (m : Machine V) : Machine V :=
  if IPAddress.isValid req.hostHeader then
    let m := m.emit (Event.sendHeader (lit "Location") (lit "http://" ++ req.localIP.toString))
    let m := m.emit (Event.send 302 mimePlain [])
    m.emit Event.clientStop
  else
    let m := m.emit (Event.send 404 mimePlain [])
    m.emit Event.clientStop

/-- The `while` loop of `wifiConnected` with `k` iterations left and counter `i`; `status j`
tells whether the poll number `j` of `WiFi.status()` reports `WL_CONNECTED`. -/
def wifiConnectedLoop (status : Nat → Bool) (interval : Int) : Nat → Nat → Bool × List Event
  | 0, _ => (false, [])
  | k + 1, i =>
    if status i then (true, [Event.wifiStatus])
    else
      let r := wifiConnectedLoop status interval k (i + 1)
      (r.1, Event.wifiStatus :: Event.delay interval :: r.2)

/-- The body of `ConfigManager::wifiConnected`: the result and the device afterwards.  The loop
runs while `i < wifiConnectRetries` from `i = 0`, that is at most `wifiConnectRetries` times. -/
def wifiConnected (status : Nat → Bool) (m : Machine V) : Bool × Machine V :=
  let m := m.emit (Event.serial "Waiting for WiFi to connect")
  let r := wifiConnectedLoop status m.cm.wifiConnectInterval m.cm.wifiConnectRetries.toNat 0
  let m := { m with trace := m.trace ++ r.2 }
  if r.1 then (true, m) else (false, m.emit (Event.serial "Connection timed out"))

/-- The routes registered by both `startAP` and `startApi`. -/
def portalRoutes : List (Str × HTTPMethod × Handler) :=
  [(lit "/", HTTPMethod.HTTP_GET, Handler.handleAPGet),
   (lit "/", HTTPMethod.HTTP_POST, Handler.handleAPPost)]

/-- The `WebServer(80)` that `startAP` configures. -/
def apServer : WebServer where
  port := 80
  headerKeys := [lit "Content-Type"]
  routes := portalRoutes
  notFound := some Handler.handleNotFound

/-- The `WebServer(80)` that `startApi` configures. -/
def apiServer : WebServer where
  port := 80
  headerKeys := [lit "Content-Type"]
  routes := portalRoutes ++
    [(lit "/settings", HTTPMethod.HTTP_GET, Handler.handleRESTGet),
     (lit "/settings", HTTPMethod.HTTP_PUT, Handler.handleRESTPut)]
  notFound := some Handler.handleNotFound

/-- The body of `ConfigManager::startAP`, where `millis` is the value `millis()` returns. -/
def startAP (millis : Nat) (m : Machine V) : Machine V :=
  let m := { m with cm := { m.cm with mode := Mode.ap } }
  let m := m.emit (Event.wifiMode WiFiMode.WIFI_AP)
  let m := m.emit (Event.softAP m.cm.apName m.cm.apPassword)
  let m := m.emit (Event.delay 500)
  let m := m.emit (Event.softAPConfig DNS_IP DNS_IP ⟨255, 255, 255, 0⟩)
  let m := { m with cm := { m.cm with dnsServer := true } }
  let m := m.emit (Event.dnsStart DNS_PORT (lit "*") DNS_IP)
  let m := { m with cm := { m.cm with server := some apServer } }
  let m := if m.cm.apCallback then m.emit Event.apCallback else m
  let m := m.emit Event.serverBegin
  { m with cm := { m.cm with apStart := millis } }

/-- The body of `ConfigManager::startApi`. -/
def startApi (m : Machine V) : Machine V :=
  let m := { m with cm := { m.cm with mode := Mode.api } }
  let m := { m with cm := { m.cm with server := some apiServer } }
  let m := if m.cm.apiCallback then m.emit Event.apiCallback else m
  m.emit Event.serverBegin

/-- The host name `setup` hands to `WiFi.hostname`: the stored name, or the result of
`snprintf(newHostname, 64, "%s_%0X", details.hostname, *hostnamePostfix)`. -/
def setupHostname (details : List Byte) (hostnamePostfix : Option Nat) : Str :=
  let hostname := cstr (details.drop (SSID_LENGTH + SSID_PWD_LENGTH))
  match hostnamePostfix with
  | some postfixValue => (hostname ++ [95] ++ formatHex postfixValue).take 63
  | none => hostname

/-- The last three statements of `setup`, reached from the header mismatch branch and by
falling out of the failed connection branch: `apTimeout = 0; startAP(); return;`. -/
def setupStartAP (millis : Nat) (m : Machine V) : Machine V :=
  startAP millis { m with cm := { m.cm with apTimeout := 0 } }

/-- The body of `ConfigManager::setup`.  `status` answers the polls of `WiFi.status()`,
`millis` is the value of `millis()` when the access point has started. -/
def setup (CONFIG_OFFSET : Nat) (status : Nat → Bool) (millis : Nat)
    (hostnamePostfix : Option Nat) (m : Machine V) : Machine V :=
  let m := m.emit (Event.serial "Reading saved configuration")
  let header := m.EEPROM.get 0 sizeofMagicHeader
  let m := m.emit (Event.eepromGet 0 sizeofMagicHeader)
  if header = magicHeader then
    let details := m.EEPROM.get sizeofMagicHeader sizeofWifiDetails
    let m := m.emit (Event.eepromGet sizeofMagicHeader sizeofWifiDetails)
    let m := readConfig CONFIG_OFFSET m
    let m := m.emit (Event.wifiHostname (setupHostname details hostnamePostfix))
    let m := m.emit (Event.wifiBegin (cstr details)
      (if details.getD SSID_LENGTH 0 = 0 then none else some (cstr (details.drop SSID_LENGTH))))
    let r := wifiConnected status m
    if r.1 then
      let m := r.2.emit (Event.wifiMode WiFiMode.WIFI_STA)
      startApi m
    else
      setupStartAP millis r.2
  else
    setupStartAP millis m

end Source

/-! ## Parameters of `ConfigManager.h` -/

/-- Modelled from the spec: `ConfigParameter<T>` of `ConfigManager.h`, which is not among the
sources.  A parameter has a name, a mode and a value with its own serialize and
deserialize capability; export writes the serialized value under the name, and an import
deserializes and assigns the field of that name when the payload contains it, leaving the
parameter untouched otherwise. -/
structure ConfigParameter (V : Type) where
  name : Str
  mode : ParameterMode
  value : V
  encode : V → Str
  decode : Str → V

/-- The parameter as the registry holds it, through the `BaseParameter` interface. -/
def ConfigParameter.toBase {V : Type} (c : ConfigParameter V) : BaseParameter V where
  getMode := c.mode
  value := c.value
  toJson := fun v obj => obj.set c.name (c.encode v)
  fromJson := fun obj v => if obj.containsKey c.name then c.decode (obj.get c.name) else v

/-! ## Vocabulary of the statements -/

/-- The events a step added to the trace. -/
def newEvents {V : Type} (before after : Machine V) : List Event :=
  after.trace.drop before.trace.length

/-- A string truncated or NUL-padded to exactly `n` bytes. -/
def padTo (n : Nat) (s : Str) : List Byte := s.take n ++ List.replicate (n - s.length) 0

/-- The events of the `for` loop of `writeConfig`. -/
def writeConfigEvents (off : Nat) (config : List Byte) : Nat → Nat → List Event
  | 0, _ => []
  | k + 1, i => Event.eepromWrite (off + i) (config.getD i 0) :: writeConfigEvents off config k (i + 1)

/-- The positions of the parameters whose mode is not `excluded`, in insertion order. -/
def positionsNot {V : Type} (excluded : ParameterMode) (ps : List (BaseParameter V)) : List Nat :=
  (List.range ps.length).filter
    (fun i => decide (∃ p, ps[i]? = some p ∧ p.getMode ≠ excluded))

/-- The index of a `fromJson` call event. -/
def Event.fromJsonIndex : Event → Option Nat
  | Event.fromJson i => some i
  | _ => none

/-- The members `handleRESTGet` collects from name-keyed parameters. -/
def exportMembers {V : Type} (cs : List (ConfigParameter V)) : List (Str × Str) :=
  (cs.filter (fun c => decide (c.mode ≠ ParameterMode.set))).map (fun c => (c.name, c.encode c.value))

/-! ## Concrete devices and requests -/

/-- An erased EEPROM: every byte reads `0xFF`. -/
def erasedEEPROM : EEPROMClass := ⟨fun _ => 255, fun _ => 255⟩

/-- An EEPROM whose first bytes are `bytes`, in RAM copy and in flash, on an erased sector. -/
def eepromWith (bytes : List Byte) : EEPROMClass := (erasedEEPROM.put 0 bytes).commit

/-- The `EEPROM` object after a restart: the RAM copy is loaded from flash. -/
def EEPROMClass.reboot (e : EEPROMClass) : EEPROMClass := ⟨e.flash, e.flash⟩

/-- A device before `setup`, with the given access point timeout and retry count. -/
def freshMachine (apTimeout retries : Int) (e : EEPROMClass) : Machine Str where
  cm :=
    { mode := Mode.api, apName := lit "Thing", apPassword := [], apTimeout := apTimeout,
      apStart := 0, wifiConnectRetries := retries, wifiConnectInterval := 500,
      apCallback := false, apiCallback := false, printCallback := false, dnsServer := false,
      server := none, parameters := [], config := [0, 0], configSize := 2 }
  EEPROM := e
  trace := []

/-- A device in access point mode since `apStart`, with the given timeout. -/
def apMachine (apTimeout : Int) (apStart : Nat) : Machine Str :=
  startAP apStart (setAPTimeout apTimeout (freshMachine 0 20 erasedEEPROM))

/-- A device whose stored header has a lower minor version: `'C','M',0,1`. -/
def staleHeaderMachine : Machine Str := freshMachine 60 3 (eepromWith [67, 77, 0, 1])

/-- The device of the retry exhaustion scenario: a valid header and stored credentials,
`setAPTimeout(60)`, three connection retries. -/
def provisionedMachine : Machine Str :=
  setAPTimeout 60 (freshMachine 0 3
    (eepromWith (magicHeader ++ wifiDetailsBytes (lit "home") (lit "secret") (lit "thing"))))

/-- A request with form-encoded arguments `ssid`, `password`, `hostname` and the given
`Host` header, received on the access point address. -/
def formRequest (ssid password hostname host : Str) : Request where
  contentType := lit "application/x-www-form-urlencoded"
  hostHeader := host
  arg := fun name =>
    if name = lit "ssid" then ssid
    else if name = lit "password" then password
    else if name = lit "hostname" then hostname
    else []
  localIP := DNS_IP

/-- A `PUT /settings` request with the given body. -/
def jsonRequest (body : Str) : Request where
  contentType := mimeJSON
  hostHeader := lit "192.168.1.1"
  arg := fun name => if name = lit "plain" then body else []
  localIP := DNS_IP

/-- A stand-in for the ArduinoJson text functions that accepts no text and prints nothing. -/
def rejectingJson : ArduinoJson where
  parseObject := fun _ => ⟨false, []⟩
  printTo := fun _ => []

/-- The device after an onboarding submission whose ssid has 32 characters `a`. -/
def longSsidPosted : Machine Str :=
  handleAPPost rejectingJson
    (formRequest (List.replicate 32 97) (lit "secret") (lit "thing") (lit "192.168.1.1"))
    (apMachine 0 0)

/-- A device in API mode whose registry is `cs`. -/
def registryMachine {V : Type} (cs : List (ConfigParameter V)) : Machine V where
  cm :=
    { mode := Mode.api, apName := lit "Thing", apPassword := [], apTimeout := 0,
      apStart := 0, wifiConnectRetries := 20, wifiConnectInterval := 500,
      apCallback := false, apiCallback := false, printCallback := false, dnsServer := false,
      server := some apiServer, parameters := cs.map ConfigParameter.toBase, config := [0, 0],
      configSize := 2 }
  EEPROM := erasedEEPROM
  trace := []

/-- Two parameters registered under the same name `x`, with values `1` and `2`. -/
def duplicateNames : List (ConfigParameter Str) :=
  [⟨lit "x", ParameterMode.both, lit "1", id, id⟩, ⟨lit "x", ParameterMode.both, lit "2", id, id⟩]

/-- The registry of the spec's example: `threshold` (read and write) and `secretKey`
(write only). -/
def exampleRegistry : List (ConfigParameter Str) :=
  [⟨lit "threshold", ParameterMode.both, lit "5", id, id⟩,
   ⟨lit "secretKey", ParameterMode.set, lit "x", id, id⟩]

/-! ## Theorems -/

variable {V : Type}

/-! ### Traces -/

theorem newEvents_append {V : Type} (m m2 : Machine V) (l : List Event)
    (h : m2.trace = m.trace ++ l) : newEvents m m2 = l := by
  simp [newEvents, h]

theorem emit_trace (m : Machine V) (e : Event) : (m.emit e).trace = m.trace ++ [e] := rfl

theorem startAP_trace (millis : Nat) (m : Machine V) :
    (startAP millis m).trace = m.trace ++
      ([Event.wifiMode WiFiMode.WIFI_AP, Event.softAP m.cm.apName m.cm.apPassword,
        Event.delay 500, Event.softAPConfig DNS_IP DNS_IP ⟨255, 255, 255, 0⟩,
        Event.dnsStart DNS_PORT (lit "*") DNS_IP] ++
       (if m.cm.apCallback then [Event.apCallback] else []) ++ [Event.serverBegin]) := by
  unfold startAP
  by_cases h : m.cm.apCallback = true <;> simp [h, Machine.emit]

theorem startAP_mode (millis : Nat) (m : Machine V) : (startAP millis m).cm.mode = Mode.ap := by
  unfold startAP
  by_cases h : m.cm.apCallback = true <;> simp [h, Machine.emit]

theorem startAP_apTimeout (millis : Nat) (m : Machine V) :
    (startAP millis m).cm.apTimeout = m.cm.apTimeout := by
  unfold startAP
  by_cases h : m.cm.apCallback = true <;> simp [h, Machine.emit]

theorem startAP_EEPROM (millis : Nat) (m : Machine V) : (startAP millis m).EEPROM = m.EEPROM := by
  unfold startAP
  by_cases h : m.cm.apCallback = true <;> simp [h, Machine.emit]

theorem setupStartAP_apTimeout (millis : Nat) (m : Machine V) :
    (setupStartAP millis m).cm.apTimeout = 0 := by
  rw [setupStartAP, startAP_apTimeout]

theorem setupStartAP_mode (millis : Nat) (m : Machine V) :
    (setupStartAP millis m).cm.mode = Mode.ap := by
  rw [setupStartAP, startAP_mode]

theorem writeConfigLoop_spec (off : Nat) (k i : Nat) (m : Machine V) :
    (writeConfigLoop off k i m).cm = m.cm ∧
    (writeConfigLoop off k i m).trace = m.trace ++ writeConfigEvents off m.cm.config k i := by
  induction k generalizing i m with
  | zero => simp [writeConfigLoop, writeConfigEvents]
  | succ k ih =>
    rw [writeConfigLoop]
    obtain ⟨h1, h2⟩ := ih (i + 1) (m.eepromWrite (off + i) (m.cm.config.getD i 0))
    refine ⟨by rw [h1]; rfl, ?_⟩
    rw [h2]
    simp [Machine.eepromWrite, writeConfigEvents]

theorem writeConfig_cm (off : Nat) (m : Machine V) : (writeConfig off m).cm = m.cm := by
  unfold writeConfig
  have h := (writeConfigLoop_spec off m.cm.configSize 0 m).1
  by_cases hp : m.cm.printCallback = true <;>
    simp [Machine.eepromCommit, Machine.emit, h, hp]

theorem writeConfig_trace (off : Nat) (m : Machine V) :
    (writeConfig off m).trace = m.trace ++
      (writeConfigEvents off m.cm.config m.cm.configSize 0 ++ [Event.eepromCommit] ++
        (if m.cm.printCallback then [Event.printCallback m.cm.config] else [])) := by
  unfold writeConfig
  obtain ⟨h1, h2⟩ := writeConfigLoop_spec off m.cm.configSize 0 m
  by_cases hp : m.cm.printCallback = true <;>
    simp [Machine.eepromCommit, Machine.emit, h1, h2, hp]

theorem mem_writeConfigEvents (off : Nat) (config : List Byte) (k i : Nat) (e : Event)
    (h : e ∈ writeConfigEvents off config k i) : ∃ a b, e = Event.eepromWrite a b := by
  induction k generalizing i with
  | zero => simp [writeConfigEvents] at h
  | succ k ih =>
    simp only [writeConfigEvents, List.mem_cons] at h
    rcases h with h | h
    · exact ⟨_, _, h⟩
    · exact ih (i + 1) h

/-! ### Boot: `setup` -/

theorem setup_of_mismatch (off : Nat) (status : Nat → Bool) (millis : Nat)
    (hostnamePostfix : Option Nat) (m : Machine V)
    (h : m.EEPROM.get 0 sizeofMagicHeader ≠ magicHeader) :
    setup off status millis hostnamePostfix m =
      setupStartAP millis ((m.emit (Event.serial "Reading saved configuration")).emit
        (Event.eepromGet 0 sizeofMagicHeader)) := by
  have h2 : (m.emit (Event.serial "Reading saved configuration")).EEPROM.get 0 sizeofMagicHeader
      ≠ magicHeader := h
  simp only [setup, h2, if_false]

/-- C1: whenever the four header bytes read from EEPROM offset 0 differ from the compiled
`magicHeader` in any byte, `setup` ends in mode `ap` having started the access point, and the
platform calls it makes are exactly the header read followed by the calls of `startAP`: the
stored credentials are not read, `WiFi.begin` is not called, `WiFi.status()` is never polled
and `wifiConnected` is not entered. -/
theorem setup_header_mismatch (off : Nat) (status : Nat → Bool) (millis : Nat)
    (hostnamePostfix : Option Nat) (m : Machine V)
    (h : m.EEPROM.get 0 sizeofMagicHeader ≠ magicHeader) :
    (setup off status millis hostnamePostfix m).cm.mode = Mode.ap ∧
    newEvents m (setup off status millis hostnamePostfix m) =
      [Event.serial "Reading saved configuration", Event.eepromGet 0 sizeofMagicHeader,
       Event.wifiMode WiFiMode.WIFI_AP, Event.softAP m.cm.apName m.cm.apPassword,
       Event.delay 500, Event.softAPConfig DNS_IP DNS_IP ⟨255, 255, 255, 0⟩,
       Event.dnsStart DNS_PORT (lit "*") DNS_IP] ++
      (if m.cm.apCallback then [Event.apCallback] else []) ++ [Event.serverBegin] ∧
    (∀ e ∈ newEvents m (setup off status millis hostnamePostfix m),
      e ≠ Event.eepromGet sizeofMagicHeader sizeofWifiDetails ∧
      (∀ ssid passphrase, e ≠ Event.wifiBegin ssid passphrase) ∧
      e ≠ Event.wifiStatus ∧ e ≠ Event.serial "Waiting for WiFi to connect") := by
  have htrace : newEvents m (setup off status millis hostnamePostfix m) =
      [Event.serial "Reading saved configuration", Event.eepromGet 0 sizeofMagicHeader,
       Event.wifiMode WiFiMode.WIFI_AP, Event.softAP m.cm.apName m.cm.apPassword,
       Event.delay 500, Event.softAPConfig DNS_IP DNS_IP ⟨255, 255, 255, 0⟩,
       Event.dnsStart DNS_PORT (lit "*") DNS_IP] ++
      (if m.cm.apCallback then [Event.apCallback] else []) ++ [Event.serverBegin] := by
    apply newEvents_append
    rw [setup_of_mismatch off status millis hostnamePostfix m h, setupStartAP, startAP_trace]
    simp [Machine.emit]
  refine ⟨?_, htrace, ?_⟩
  · rw [setup_of_mismatch off status millis hostnamePostfix m h, setupStartAP, startAP_mode]
  · intro e he
    rw [htrace] at he
    by_cases hc : m.cm.apCallback = true
    · simp [hc] at he
      rcases he with rfl | rfl | rfl | rfl | rfl | rfl | rfl | rfl | rfl <;>
        simp [sizeofMagicHeader, sizeofWifiDetails]
    · simp [hc] at he
      rcases he with rfl | rfl | rfl | rfl | rfl | rfl | rfl | rfl <;>
        simp [sizeofMagicHeader, sizeofWifiDetails]

set_option maxRecDepth 100000 in
/-- C1 at a stored header with a lower minor version, `'C','M',0,1`. -/
theorem setup_header_mismatch_witness :
    staleHeaderMachine.EEPROM.get 0 sizeofMagicHeader ≠ magicHeader ∧
    (setup 132 (fun _ => true) 1000 none staleHeaderMachine).cm.mode = Mode.ap ∧
    (∀ e ∈ newEvents staleHeaderMachine (setup 132 (fun _ => true) 1000 none staleHeaderMachine),
      e ≠ Event.eepromGet sizeofMagicHeader sizeofWifiDetails ∧
      (∀ ssid passphrase, e ≠ Event.wifiBegin ssid passphrase) ∧
      e ≠ Event.wifiStatus ∧ e ≠ Event.serial "Waiting for WiFi to connect") :=
  ⟨by decide,
    (setup_header_mismatch 132 (fun _ => true) 1000 none staleHeaderMachine (by decide)).1,
    (setup_header_mismatch 132 (fun _ => true) 1000 none staleHeaderMachine (by decide)).2.2⟩

theorem wifiConnectedLoop_never (status : Nat → Bool) (interval : Int)
    (h : ∀ j, status j = false) (k i : Nat) :
    (wifiConnectedLoop status interval k i).1 = false := by
  induction k generalizing i with
  | zero => rfl
  | succ k ih => simp [wifiConnectedLoop, h i, ih]

theorem wifiConnected_fst (status : Nat → Bool) (m : Machine V) :
    (wifiConnected status m).1 =
      (wifiConnectedLoop status m.cm.wifiConnectInterval m.cm.wifiConnectRetries.toNat 0).1 := by
  unfold wifiConnected
  simp only [Machine.emit]
  split <;> simp_all

/-- With a matching header and no successful poll, `setup` ends in mode `ap` with
`apTimeout = 0`, whatever timeout was configured. -/
theorem setup_retry_exhaustion (off : Nat) (status : Nat → Bool) (millis : Nat)
    (hostnamePostfix : Option Nat) (m : Machine V)
    (hheader : m.EEPROM.get 0 sizeofMagicHeader = magicHeader)
    (hfail : ∀ j, status j = false) :
    (setup off status millis hostnamePostfix m).cm.mode = Mode.ap ∧
    (setup off status millis hostnamePostfix m).cm.apTimeout = 0 := by
  have h2 : (m.emit (Event.serial "Reading saved configuration")).EEPROM.get 0 sizeofMagicHeader
      = magicHeader := hheader
  simp only [setup, h2, if_true]
  simp only [wifiConnected_fst, wifiConnectedLoop_never status _ hfail]
  simp [setupStartAP_apTimeout, setupStartAP_mode]

set_option maxRecDepth 100000 in
/-- C6: the code at the failing input.  The stored header is valid, `setAPTimeout(60)` was
called and no poll of `WiFi.status()` succeeds: `setup` falls out of the failed connection
branch into the shared statements `apTimeout = 0; startAP();`, so the access point is entered
with `apTimeout = 0` where the claim expects the configured 60. -/
theorem setup_retry_exhaustion_zeroes_timeout :
    provisionedMachine.EEPROM.get 0 sizeofMagicHeader = magicHeader ∧
    provisionedMachine.cm.apTimeout = 60 ∧
    (setup 132 (fun _ => false) 1000 none provisionedMachine).cm.mode = Mode.ap ∧
    (setup 132 (fun _ => false) 1000 none provisionedMachine).cm.apTimeout = 0 :=
  ⟨by decide, by decide,
    (setup_retry_exhaustion 132 (fun _ => false) 1000 none provisionedMachine (by decide)
      (fun _ => rfl)).1,
    (setup_retry_exhaustion 132 (fun _ => false) 1000 none provisionedMachine (by decide)
      (fun _ => rfl)).2⟩

/-! ### The access point timeout: `loop` -/

theorem loop_trace {V : Type} (millis : Nat) (m : Machine V) :
    (loop millis m).trace = m.trace ++
      ((if loopRestarts millis m then [Event.restart] else []) ++
       (if m.cm.dnsServer then [Event.processNextRequest] else []) ++
       (if m.cm.server.isSome then [Event.handleClient] else [])) := by
  unfold loop
  by_cases h1 : loopRestarts millis m = true <;> by_cases h2 : m.cm.dnsServer = true <;>
    by_cases h3 : m.cm.server.isSome = true <;> simp [h1, h2, h3, Machine.emit]

theorem toUnsignedLong_of_range (x : Int) (h0 : 0 ≤ x) (h1 : x < 2 ^ 31) :
    (toUnsignedLong x : Int) = x := by
  unfold toUnsignedLong
  have : x % 2 ^ 32 = x := Int.emod_eq_of_lt h0 (by omega)
  rw [this]; exact Int.toNat_of_nonneg h0

/-- C7 as amended: in access point mode, with `apTimeout` a value of type `int`, `loop` forces
a restart if and only if `apTimeout > 0` and the elapsed seconds `(millis - apStart) / 1000`
are strictly greater than `apTimeout`; so a timeout of 0 never restarts, and a timeout `T > 0`
restarts from `T + 1` elapsed seconds on, not at `T`. -/
theorem loop_restart_iff {V : Type} (millis : Nat) (m : Machine V)
    (hmode : m.cm.mode = Mode.ap) (hint : m.cm.apTimeout < 2 ^ 31) :
    Event.restart ∈ newEvents m (loop millis m) ↔
      (0 < m.cm.apTimeout ∧ m.cm.apTimeout < (elapsedSeconds m.cm.apStart millis : Int)) := by
  rw [newEvents_append m _ _ (loop_trace millis m)]
  by_cases hpos : 0 < m.cm.apTimeout
  · have hu := toUnsignedLong_of_range m.cm.apTimeout (le_of_lt hpos) hint
    have hiff : elapsedSeconds m.cm.apStart millis > toUnsignedLong m.cm.apTimeout ↔
        m.cm.apTimeout < (elapsedSeconds m.cm.apStart millis : Int) := by
      constructor <;> intro h <;> omega
    by_cases hgt : m.cm.apTimeout < (elapsedSeconds m.cm.apStart millis : Int)
    · have : loopRestarts millis m = true := by
        simp [loopRestarts, hmode, hpos, hiff.mpr hgt]
      simp [this, hpos, hgt]
    · have hn : ¬ elapsedSeconds m.cm.apStart millis > toUnsignedLong m.cm.apTimeout :=
        fun h => hgt (hiff.mp h)
      have : loopRestarts millis m = false := by
        simp [loopRestarts, hmode, hpos]; omega
      by_cases h2 : m.cm.dnsServer = true <;> by_cases h3 : m.cm.server.isSome = true <;>
        simp [this, hgt, h2, h3]
  · have : loopRestarts millis m = false := by
      simp [loopRestarts, hmode, hpos]
    by_cases h2 : m.cm.dnsServer = true <;> by_cases h3 : m.cm.server.isSome = true <;>
      simp [this, hpos, h2, h3]

/-- The amended C7 at timeout 5 and 6000 ms after the access point started. -/
theorem loop_restart_iff_witness :
    (apMachine 5 0).cm.mode = Mode.ap ∧ (apMachine 5 0).cm.apTimeout < 2 ^ 31 ∧
    (Event.restart ∈ newEvents (apMachine 5 0) (loop 6000 (apMachine 5 0)) ↔
      (0 < (apMachine 5 0).cm.apTimeout ∧
        (apMachine 5 0).cm.apTimeout < (elapsedSeconds (apMachine 5 0).cm.apStart 6000 : Int))) :=
  ⟨by decide, by decide, loop_restart_iff 6000 (apMachine 5 0) (by decide) (by decide)⟩

/-- C7 fails as stated: in access point mode with `apTimeout = 5`, at exactly 5 elapsed
seconds (`millis() - apStart = 5000`) `loop` does not restart. -/
theorem loop_no_restart_at_timeout :
    (apMachine 5 0).cm.mode = Mode.ap ∧ (apMachine 5 0).cm.apTimeout = 5 ∧
    elapsedSeconds (apMachine 5 0).cm.apStart 5000 = 5 ∧
    Event.restart ∉ newEvents (apMachine 5 0) (loop 5000 (apMachine 5 0)) := by
  decide

/-! ### Onboarding: `handleAPPost` -/

/-- C3: when the ssid or the hostname that `handleAPPost` takes from the submission (JSON body
or form arguments) is empty, the only platform call is the response 400; nothing is written
or committed, so the EEPROM (RAM copy and flash) is unchanged, the device state is unchanged
and there is no restart. -/
theorem handleAPPost_invalid (lib : ArduinoJson) (req : Request) (m : Machine V)
    (h : (handleAPPostFields lib req).1 = [] ∨ (handleAPPostFields lib req).2.2 = []) :
    newEvents m (handleAPPost lib req m) =
      [Event.send 400 mimePlain (lit "Invalid ssid or hostname.")] ∧
    (handleAPPost lib req m).EEPROM = m.EEPROM ∧
    (handleAPPost lib req m).cm = m.cm := by
  have hcond : (handleAPPostFields lib req).1.length = 0 ∨
      (handleAPPostFields lib req).2.2.length = 0 := by
    rcases h with h | h
    · left; rw [h]; rfl
    · right; rw [h]; rfl
  have hrun : handleAPPost lib req m =
      m.emit (Event.send 400 mimePlain (lit "Invalid ssid or hostname.")) := by
    unfold handleAPPost
    simp only [hcond, if_true]
  rw [hrun]
  exact ⟨newEvents_append m _ _ rfl, rfl, rfl⟩

/-- C3 at a form submission with an empty ssid. -/
theorem handleAPPost_invalid_witness :
    ((handleAPPostFields rejectingJson
        (formRequest [] (lit "secret") (lit "thing") (lit "192.168.1.1"))).1 = [] ∨
      (handleAPPostFields rejectingJson
        (formRequest [] (lit "secret") (lit "thing") (lit "192.168.1.1"))).2.2 = []) ∧
    newEvents (apMachine 0 0)
        (handleAPPost rejectingJson
          (formRequest [] (lit "secret") (lit "thing") (lit "192.168.1.1")) (apMachine 0 0)) =
      [Event.send 400 mimePlain (lit "Invalid ssid or hostname.")] ∧
    (handleAPPost rejectingJson
      (formRequest [] (lit "secret") (lit "thing") (lit "192.168.1.1")) (apMachine 0 0)).EEPROM =
      (apMachine 0 0).EEPROM :=
  ⟨Or.inl (by decide),
    (handleAPPost_invalid rejectingJson
      (formRequest [] (lit "secret") (lit "thing") (lit "192.168.1.1")) (apMachine 0 0)
      (Or.inl (by decide))).1,
    (handleAPPost_invalid rejectingJson
      (formRequest [] (lit "secret") (lit "thing") (lit "192.168.1.1")) (apMachine 0 0)
      (Or.inl (by decide))).2.1⟩

theorem strncpy_nil (n : Nat) : strncpy n [] = List.replicate n 0 := by
  induction n with
  | zero => rfl
  | succ n ih => simp [strncpy, ih, List.replicate_succ]

theorem strncpy_length (n : Nat) (s : Str) : (strncpy n s).length = n := by
  induction n generalizing s with
  | zero => simp [strncpy]
  | succ n ih =>
    cases s with
    | nil => simp [strncpy, ih]
    | cons c cs =>
      by_cases hc : c = 0 <;> simp [strncpy, hc, ih]

theorem strncpy_eq_padTo (n : Nat) (s : Str) (h : ∀ b ∈ s, b ≠ 0) : strncpy n s = padTo n s := by
  induction n generalizing s with
  | zero => simp [strncpy, padTo]
  | succ n ih =>
    cases s with
    | nil => simp [strncpy_nil, padTo]
    | cons c cs =>
      have hc : c ≠ 0 := h c (List.mem_cons_self _ _)
      have hcs : ∀ b ∈ cs, b ≠ 0 := fun b hb => h b (List.mem_cons_of_mem _ hb)
      simp [strncpy, hc, ih cs hcs, padTo]

/-- A NUL-free string of `n` or more characters leaves no NUL in the `n` bytes copied. -/
theorem strncpy_unterminated (n : Nat) (s : Str) (h : ∀ b ∈ s, b ≠ 0) (hlen : n ≤ s.length) :
    (0 : Byte) ∉ strncpy n s := by
  rw [strncpy_eq_padTo n s h, padTo, Nat.sub_eq_zero_of_le hlen]
  intro hmem
  simp only [List.replicate_zero, List.append_nil] at hmem
  exact h 0 (List.mem_of_mem_take hmem) rfl

theorem wifiDetailsBytes_length (ssid password hostname : Str) :
    (wifiDetailsBytes ssid password hostname).length = sizeofWifiDetails := by
  simp [wifiDetailsBytes, strncpy_length, sizeofWifiDetails, Nat.add_assoc]

theorem map_range_getD (l : List Byte) :
    (List.range l.length).map (fun i => l.getD i 0) = l := by
  apply List.ext_getElem
  · simp
  · intro i h1 h2
    simp at h1
    simp [List.getD_eq_getElem?_getD, h1]

theorem stored_header_after_puts (e : EEPROMClass) (details : List Byte) :
    ((e.put 0 magicHeader).put sizeofMagicHeader details).commit.stored 0 sizeofMagicHeader =
      magicHeader := by
  simp [EEPROMClass.stored, EEPROMClass.commit, EEPROMClass.put, sizeofMagicHeader,
    List.range_succ, magicHeader]

theorem stored_details_after_puts (e : EEPROMClass) (header details : List Byte) :
    ((e.put 0 header).put sizeofMagicHeader details).commit.stored sizeofMagicHeader
      details.length = details := by
  have h : ∀ i ∈ List.range details.length,
      (((e.put 0 header).put sizeofMagicHeader details).commit.flash (sizeofMagicHeader + i)) =
        details.getD i 0 := by
    intro i hi
    have hi2 : i < details.length := List.mem_range.mp hi
    simp [EEPROMClass.commit, EEPROMClass.put, hi2]
  rw [EEPROMClass.stored, List.map_congr_left h, map_range_getD]

theorem handleAPPost_valid_run (lib : ArduinoJson) (req : Request) (m : Machine V)
    (ssid password hostname : Str)
    (hfields : handleAPPostFields lib req = (ssid, password, hostname))
    (hssid : ssid ≠ []) (hhost : hostname ≠ []) :
    handleAPPost lib req m =
      ((((((m.eepromPut 0 magicHeader).eepromPut sizeofMagicHeader
        (wifiDetailsBytes ssid password hostname)).eepromCommit).emit
        (Event.send 204 mimePlain
          (lit "Saved. Will attempt to reboot and connect with new ssid and password."))).emit
        (Event.delay 1000)).emit Event.restart) := by
  have h1 : ¬ (ssid.length = 0 ∨ hostname.length = 0) := by
    simp [List.length_eq_zero, hssid, hhost]
  unfold handleAPPost
  rw [hfields]
  simp only [h1, if_false]

/-- C2 as amended: for a submission with non-empty ssid and hostname whose ssid, password and
hostname contain no NUL byte, after `handleAPPost` the persisted bytes 0..3 are
`'C','M',0,2`, the 128 persisted bytes from offset 4 are the ssid truncated or NUL-padded to
32 bytes, then the password to 64 bytes, then the hostname to 32 bytes, and the platform
calls are, in order: put of the header, put of the credentials, commit, response 204, delay,
restart. -/
theorem handleAPPost_persists (lib : ArduinoJson) (req : Request) (m : Machine V)
    (ssid password hostname : Str)
    (hfields : handleAPPostFields lib req = (ssid, password, hostname))
    (hssid : ssid ≠ []) (hhost : hostname ≠ [])
    (hs : ∀ b ∈ ssid, b ≠ 0) (hp : ∀ b ∈ password, b ≠ 0) (hh : ∀ b ∈ hostname, b ≠ 0) :
    (handleAPPost lib req m).EEPROM.stored 0 4 = [67, 77, 0, 2] ∧
    (handleAPPost lib req m).EEPROM.stored 4 128 =
      padTo 32 ssid ++ padTo 64 password ++ padTo 32 hostname ∧
    newEvents m (handleAPPost lib req m) =
      [Event.eepromPut 0 [67, 77, 0, 2],
       Event.eepromPut 4 (padTo 32 ssid ++ padTo 64 password ++ padTo 32 hostname),
       Event.eepromCommit,
       Event.send 204 mimePlain
         (lit "Saved. Will attempt to reboot and connect with new ssid and password."),
       Event.delay 1000, Event.restart] := by
  have hd : wifiDetailsBytes ssid password hostname =
      padTo 32 ssid ++ padTo 64 password ++ padTo 32 hostname := by
    simp [wifiDetailsBytes, SSID_LENGTH, SSID_PWD_LENGTH, HOSTNAME_LENGTH,
      strncpy_eq_padTo _ _ hs, strncpy_eq_padTo _ _ hp, strncpy_eq_padTo _ _ hh]
  have hlen : (wifiDetailsBytes ssid password hostname).length = 128 :=
    wifiDetailsBytes_length ssid password hostname
  rw [handleAPPost_valid_run lib req m ssid password hostname hfields hssid hhost]
  refine ⟨?_, ?_, ?_⟩
  · exact stored_header_after_puts m.EEPROM _
  · have := stored_details_after_puts m.EEPROM magicHeader (wifiDetailsBytes ssid password hostname)
    rw [hlen] at this
    rw [← hd]
    exact this
  · apply newEvents_append
    rw [← hd]
    simp [Machine.emit, Machine.eepromPut, Machine.eepromCommit, sizeofMagicHeader, magicHeader,
      MAJORVERSION, MINORVERSION]

set_option maxRecDepth 100000 in
/-- The amended C2 at the form submission `home` / `secret` / `thing`. -/
theorem handleAPPost_persists_witness :
    (lit "home" ≠ [] ∧ lit "thing" ≠ [] ∧ (∀ b ∈ lit "home", b ≠ 0) ∧
      (∀ b ∈ lit "secret", b ≠ 0) ∧ (∀ b ∈ lit "thing", b ≠ 0)) ∧
    (handleAPPost rejectingJson
      (formRequest (lit "home") (lit "secret") (lit "thing") (lit "192.168.1.1"))
      (apMachine 0 0)).EEPROM.stored 0 4 = [67, 77, 0, 2] ∧
    (handleAPPost rejectingJson
      (formRequest (lit "home") (lit "secret") (lit "thing") (lit "192.168.1.1"))
      (apMachine 0 0)).EEPROM.stored 4 128 =
      padTo 32 (lit "home") ++ padTo 64 (lit "secret") ++ padTo 32 (lit "thing") :=
  ⟨by decide,
    (handleAPPost_persists rejectingJson
      (formRequest (lit "home") (lit "secret") (lit "thing") (lit "192.168.1.1")) (apMachine 0 0)
      (lit "home") (lit "secret") (lit "thing") (by decide) (by decide) (by decide) (by decide)
      (by decide) (by decide)).1,
    (handleAPPost_persists rejectingJson
      (formRequest (lit "home") (lit "secret") (lit "thing") (lit "192.168.1.1")) (apMachine 0 0)
      (lit "home") (lit "secret") (lit "thing") (by decide) (by decide) (by decide) (by decide)
      (by decide) (by decide)).2.1⟩

set_option maxRecDepth 100000 in
/-- C2 fails as stated: the form submission with ssid `a`, NUL, `b` (three bytes, not empty)
and hostname `h` is accepted, but the copy stops at the NUL, so the persisted ssid field
starts `a`, NUL, NUL, NUL and is not the ssid padded to 32 bytes. -/
theorem handleAPPost_embedded_nul :
    handleAPPostFields rejectingJson (formRequest [97, 0, 98] [] [104] (lit "192.168.1.1")) =
      ([97, 0, 98], [], [104]) ∧
    (padTo 32 [97, 0, 98]).take 4 = [97, 0, 98, 0] ∧
    (handleAPPost rejectingJson (formRequest [97, 0, 98] [] [104] (lit "192.168.1.1"))
      (apMachine 0 0)).EEPROM.stored 4 4 = [97, 0, 0, 0] ∧
    (handleAPPost rejectingJson (formRequest [97, 0, 98] [] [104] (lit "192.168.1.1"))
      (apMachine 0 0)).EEPROM.stored 4 128 ≠
      padTo 32 [97, 0, 98] ++ padTo 64 [] ++ padTo 32 [104] := by
  decide

set_option maxRecDepth 100000 in
/-- C10: the code at the failing input.  The submission with a 32 character ssid is accepted
(it ends in the restart), the 32 persisted bytes of the ssid field contain no NUL, and at the
next boot `setup` hands `WiFi.begin` an ssid of 38 bytes: the field read as a C string runs
on into the password field. -/
theorem handleAPPost_unterminated_ssid :
    Event.restart ∈ newEvents (apMachine 0 0) longSsidPosted ∧
    longSsidPosted.EEPROM.stored 4 32 = List.replicate 32 97 ∧
    0 ∉ longSsidPosted.EEPROM.stored 4 32 ∧
    Event.wifiBegin (List.replicate 32 97 ++ lit "secret") (some (lit "secret")) ∈
      newEvents (freshMachine 0 1 longSsidPosted.EEPROM.reboot)
        (setup 132 (fun _ => false) 0 none (freshMachine 0 1 longSsidPosted.EEPROM.reboot)) := by
  decide

/-! ### Runtime configuration: `handleRESTGet`, `handleRESTPut` -/

theorem decodeJson_success (lib : ArduinoJson) (jsonString : Str) :
    (decodeJson lib jsonString).success = true := by
  unfold decodeJson
  split
  · rfl
  · by_cases h : (lib.parseObject jsonString).success = true <;> simp [h, JsonObject.createObject]

theorem handleRESTPut_trace (lib : ArduinoJson) (off : Nat) (req : Request) (m : Machine V) :
    newEvents m (handleRESTPut lib off req m) =
      (handleRESTPutLoop (decodeJson lib (req.arg (lit "plain"))) m.cm.parameters 0).2.map
          Event.fromJson ++
        writeConfigEvents off m.cm.config m.cm.configSize 0 ++ [Event.eepromCommit] ++
        (if m.cm.printCallback then [Event.printCallback m.cm.config] else []) ++
        [Event.send 204 mimeJSON []] := by
  apply newEvents_append
  simp only [handleRESTPut, handleRESTPutObject, decodeJson_success, Bool.not_true,
    Bool.false_eq_true, if_false, emit_trace, writeConfig_trace]
  simp

/-- C5: the code on every `PUT /settings` body, the empty body and text that is not JSON
included.  `decodeJson` replaces a failed parse by a fresh valid object, so the test
`!obj.success()` never holds: `handleRESTPut` never responds 400, always runs `writeConfig`
(the blob is written and committed) and responds 204. -/
theorem handleRESTPut_never_rejects (lib : ArduinoJson) (off : Nat) (req : Request)
    (m : Machine V) :
    (∀ contentType content,
      Event.send 400 contentType content ∉ newEvents m (handleRESTPut lib off req m)) ∧
    Event.eepromCommit ∈ newEvents m (handleRESTPut lib off req m) ∧
    Event.send 204 mimeJSON [] ∈ newEvents m (handleRESTPut lib off req m) := by
  rw [handleRESTPut_trace]
  refine ⟨?_, by simp, by simp⟩
  intro ct c hmem
  simp only [List.mem_append, List.mem_map, List.mem_singleton] at hmem
  rcases hmem with (((⟨i, _, hi⟩ | hw) | hc) | hp) | hs
  · cases hi
  · obtain ⟨a, b, hab⟩ := mem_writeConfigEvents _ _ _ _ _ hw
    cases hab
  · cases hc
  · by_cases hpc : m.cm.printCallback = true
    · simp [hpc] at hp
    · simp [hpc] at hp
  · cases hs

set_option maxRecDepth 100000 in
/-- The empty `PUT /settings` body on the registry of the spec's example: both writable
parameters are offered the empty object, the blob is written and committed, and the response
is 204. -/
theorem handleRESTPut_empty_body :
    newEvents (registryMachine exampleRegistry)
        (handleRESTPut rejectingJson 132 (jsonRequest []) (registryMachine exampleRegistry)) =
      [Event.fromJson 0, Event.fromJson 1, Event.eepromWrite 132 0, Event.eepromWrite 133 0,
       Event.eepromCommit, Event.send 204 mimeJSON []] := by
  decide

theorem positionsNot_nil (x : ParameterMode) : positionsNot x ([] : List (BaseParameter V)) = [] :=
  rfl

theorem positionsNot_cons (x : ParameterMode) (p : BaseParameter V) (ps : List (BaseParameter V)) :
    positionsNot x (p :: ps) =
      (if p.getMode = x then [] else [0]) ++ (positionsNot x ps).map (· + 1) := by
  unfold positionsNot
  rw [List.length_cons, List.range_succ_eq_map, List.filter_cons, List.filter_map]
  by_cases h : p.getMode = x
  · simp [h, Function.comp_def]
  · simp [h, Function.comp_def]

theorem handleRESTGetLoop_calls (ps : List (BaseParameter V)) (i : Nat) (obj : JsonObject) :
    (handleRESTGetLoop ps i obj).2 = (positionsNot ParameterMode.set ps).map (· + i) := by
  induction ps generalizing i obj with
  | nil => rfl
  | cons p ps ih =>
    rw [handleRESTGetLoop, positionsNot_cons]
    by_cases h : p.getMode = ParameterMode.set
    · simp [h, ih, Nat.add_comm, Nat.add_left_comm]
    · simp [h, ih, Nat.add_comm, Nat.add_left_comm]

theorem handleRESTGetLoop_object (ps : List (BaseParameter V)) (i : Nat) (obj : JsonObject) :
    (handleRESTGetLoop ps i obj).1 =
      (ps.filter (fun p => decide (p.getMode ≠ ParameterMode.set))).foldl
        (fun o p => p.toJson p.value o) obj := by
  induction ps generalizing i obj with
  | nil => rfl
  | cons p ps ih =>
    rw [handleRESTGetLoop]
    by_cases h : p.getMode = ParameterMode.set
    · simp [h, ih]
    · simp [h, ih]

theorem handleRESTPutLoop_calls (obj : JsonObject) (ps : List (BaseParameter V)) (i : Nat) :
    (handleRESTPutLoop obj ps i).2 = (positionsNot ParameterMode.get ps).map (· + i) := by
  induction ps generalizing i with
  | nil => rfl
  | cons p ps ih =>
    rw [handleRESTPutLoop, positionsNot_cons]
    by_cases h : p.getMode = ParameterMode.get
    · simp [h, ih, Nat.add_comm, Nat.add_left_comm]
    · simp [h, ih, Nat.add_comm, Nat.add_left_comm]

theorem handleRESTPutLoop_parameters (obj : JsonObject) (ps : List (BaseParameter V)) (i : Nat) :
    (handleRESTPutLoop obj ps i).1 =
      ps.map (fun p =>
        if p.getMode = ParameterMode.get then p else { p with value := p.fromJson obj p.value }) := by
  induction ps generalizing i with
  | nil => rfl
  | cons p ps ih =>
    rw [handleRESTPutLoop]
    by_cases h : p.getMode = ParameterMode.get
    · simp [h, ih]
    · simp [h, ih]

theorem handleRESTPut_parameters (lib : ArduinoJson) (off : Nat) (req : Request) (m : Machine V) :
    (handleRESTPut lib off req m).cm.parameters =
      (handleRESTPutLoop (decodeJson lib (req.arg (lit "plain"))) m.cm.parameters 0).1 := by
  simp only [handleRESTPut, handleRESTPutObject, decodeJson_success, Bool.not_true,
    Bool.false_eq_true, if_false]
  simp [Machine.emit, writeConfig_cm]

theorem filterMap_fromJsonIndex_writeConfigEvents (off : Nat) (config : List Byte) (k i : Nat) :
    (writeConfigEvents off config k i).filterMap Event.fromJsonIndex = [] := by
  induction k generalizing i with
  | zero => rfl
  | succ k ih => simp [writeConfigEvents, Event.fromJsonIndex, ih]

theorem handleRESTGet_trace (lib : ArduinoJson) (m : Machine V) :
    newEvents m (handleRESTGet lib m) =
      (positionsNot ParameterMode.set m.cm.parameters).map Event.toJson ++
        [Event.send 200 mimeJSON (lib.printTo (exportedObject m))] := by
  apply newEvents_append
  simp [handleRESTGet, Machine.emit, handleRESTGetLoop_calls, exportedObject]

/-- C4: for every registry and request, `handleRESTGet` calls `toJson` on exactly the positions
whose mode is not `set`, in insertion order, and the exported object is built from those
parameters only; `handleRESTPut` calls `fromJson` on exactly the positions whose mode is not
`get`, keeps the number of parameters, and leaves every parameter of mode `get` as it was,
whatever the payload. -/
theorem rest_visibility (lib : ArduinoJson) (off : Nat) (req : Request) (m : Machine V) :
    (newEvents m (handleRESTGet lib m) =
      (positionsNot ParameterMode.set m.cm.parameters).map Event.toJson ++
        [Event.send 200 mimeJSON (lib.printTo (exportedObject m))] ∧
     exportedObject m =
      (m.cm.parameters.filter (fun p => decide (p.getMode ≠ ParameterMode.set))).foldl
        (fun o p => p.toJson p.value o) JsonObject.createObject) ∧
    ((newEvents m (handleRESTPut lib off req m)).filterMap Event.fromJsonIndex =
      positionsNot ParameterMode.get m.cm.parameters ∧
     (handleRESTPut lib off req m).cm.parameters.length = m.cm.parameters.length ∧
     ∀ (i : Nat) (p : BaseParameter V), m.cm.parameters[i]? = some p →
       p.getMode = ParameterMode.get →
       (handleRESTPut lib off req m).cm.parameters[i]? = some p) := by
  refine ⟨⟨handleRESTGet_trace lib m, handleRESTGetLoop_object _ _ _⟩, ?_, ?_, ?_⟩
  · rw [handleRESTPut_trace, handleRESTPutLoop_calls]
    simp only [List.filterMap_append, filterMap_fromJsonIndex_writeConfigEvents]
    by_cases hp : m.cm.printCallback = true
    · simp [hp, Event.fromJsonIndex, List.filterMap_map, Function.comp_def]
    · simp [hp, Event.fromJsonIndex, List.filterMap_map, Function.comp_def]
  · rw [handleRESTPut_parameters, handleRESTPutLoop_parameters, List.length_map]
  · intro i p hi hmode
    rw [handleRESTPut_parameters, handleRESTPutLoop_parameters, List.getElem?_map, hi]
    simp [hmode]

theorem setMembers_of_not_mem (key value : Str) (ms : List (Str × Str))
    (h : key ∉ ms.map Prod.fst) : JsonObject.setMembers key value ms = ms ++ [(key, value)] := by
  induction ms with
  | nil => rfl
  | cons kv ms ih =>
    obtain ⟨k, v⟩ := kv
    simp only [List.map_cons, List.mem_cons, not_or] at h
    have hk : ¬ k = key := fun e => h.1 e.symm
    simp [JsonObject.setMembers, hk, ih h.2]

theorem lookup_of_not_mem (key : Str) (ms : List (Str × Str)) (h : key ∉ ms.map Prod.fst) :
    ms.lookup key = none := by
  induction ms with
  | nil => rfl
  | cons kv ms ih =>
    obtain ⟨k, v⟩ := kv
    simp only [List.map_cons, List.mem_cons, not_or] at h
    have hk : (key == k) = false := by simpa using h.1
    simp [List.lookup, hk, ih h.2]

theorem lookup_of_mem (key value : Str) (ms : List (Str × Str))
    (hnd : (ms.map Prod.fst).Nodup) (h : (key, value) ∈ ms) : ms.lookup key = some value := by
  induction ms with
  | nil => simp at h
  | cons kv ms ih =>
    obtain ⟨k, v⟩ := kv
    simp only [List.map_cons, List.nodup_cons] at hnd
    simp only [List.mem_cons, Prod.mk.injEq] at h
    rcases h with ⟨h1, h2⟩ | h
    · subst h1; subst h2; simp [List.lookup]
    · have hne : (key == k) = false := by
        have : key ≠ k := by
          intro e
          apply hnd.1
          rw [← e]
          exact List.mem_map.mpr ⟨(key, value), h, rfl⟩
        simpa using this
      simp [List.lookup, hne, ih hnd.2 h]

theorem ConfigParameter.roundtrip (c : ConfigParameter V) (h : ∀ v, c.decode (c.encode v) = v)
    (v w : V) (obj : JsonObject) : c.toBase.fromJson (c.toBase.toJson v obj) w = v := by
  have hl : (JsonObject.setMembers c.name (c.encode v) obj.members).lookup c.name =
      some (c.encode v) := by
    induction obj.members with
    | nil => simp [JsonObject.setMembers, List.lookup]
    | cons kv ms ih =>
      obtain ⟨k, x⟩ := kv
      by_cases hk : k = c.name
      · simp [JsonObject.setMembers, hk, List.lookup]
      · have hk2 : (c.name == k) = false := by simpa using fun e => hk e.symm
        simp [JsonObject.setMembers, hk, List.lookup, hk2, ih]
  simp [ConfigParameter.toBase, JsonObject.set, JsonObject.containsKey, JsonObject.get, hl, h]

theorem exportLoop_members (cs : List (ConfigParameter V)) (i : Nat) (obj : JsonObject)
    (hnd : (cs.map (·.name)).Nodup)
    (hdisj : ∀ c ∈ cs, c.name ∉ obj.members.map Prod.fst) :
    (handleRESTGetLoop (cs.map ConfigParameter.toBase) i obj).1 =
      { obj with members := obj.members ++ exportMembers cs } := by
  induction cs generalizing i obj with
  | nil => simp [handleRESTGetLoop, exportMembers]
  | cons c cs ih =>
    simp only [List.map_cons, List.nodup_cons] at hnd
    rw [List.map_cons, handleRESTGetLoop]
    by_cases hm : c.mode = ParameterMode.set
    · have : c.toBase.getMode = ParameterMode.set := hm
      simp only [this, if_true]
      rw [ih (i + 1) obj hnd.2 (fun c2 h2 => hdisj c2 (List.mem_cons_of_mem _ h2))]
      simp [exportMembers, hm]
    · have : ¬ c.toBase.getMode = ParameterMode.set := hm
      simp only [this, if_false]
      have hset : c.toBase.toJson c.toBase.value obj =
          { obj with members := obj.members ++ [(c.name, c.encode c.value)] } := by
        simp [ConfigParameter.toBase, JsonObject.set,
          setMembers_of_not_mem _ _ _ (hdisj c (List.mem_cons_self _ _))]
      rw [hset, ih (i + 1) _ hnd.2]
      · simp [exportMembers, hm]
      · intro c2 h2
        simp only [List.map_append, List.map_cons, List.map_nil, List.mem_append,
          List.mem_singleton, not_or]
        refine ⟨hdisj c2 (List.mem_cons_of_mem _ h2), ?_⟩
        intro e
        apply hnd.1
        rw [← e]
        exact List.mem_map.mpr ⟨c2, h2, rfl⟩

theorem exportMembers_keys_sublist (cs : List (ConfigParameter V)) :
    ((exportMembers cs).map Prod.fst).Sublist (cs.map (·.name)) := by
  have : (exportMembers cs).map Prod.fst =
      (cs.filter (fun c => decide (c.mode ≠ ParameterMode.set))).map (·.name) := by
    simp [exportMembers, Function.comp_def]
  rw [this]
  exact (List.filter_sublist _).map _

theorem putLoop_fixed (obj : JsonObject) (ps : List (BaseParameter V)) (i : Nat)
    (h : ∀ p ∈ ps, p.getMode ≠ ParameterMode.get → p.fromJson obj p.value = p.value) :
    (handleRESTPutLoop obj ps i).1 = ps := by
  rw [handleRESTPutLoop_parameters]
  conv_rhs => rw [← List.map_id ps]
  apply List.map_congr_left
  intro p hp
  by_cases hm : p.getMode = ParameterMode.get
  · simp [hm]
  · simp [hm, h p hp hm]

/-- C8 as amended: for a registry of name-keyed parameters whose deserializer restores what
the serializer wrote and whose names are pairwise distinct, applying the object built by
`handleRESTGet` with `handleRESTPut` leaves every parameter unchanged. -/
theorem export_import_noop (off : Nat) (cs : List (ConfigParameter V)) (m : Machine V)
    (hreg : m.cm.parameters = cs.map ConfigParameter.toBase)
    (hround : ∀ c ∈ cs, ∀ v, c.decode (c.encode v) = v)
    (hnames : (cs.map (·.name)).Nodup) :
    (handleRESTPutObject off (exportedObject m) m).cm.parameters = m.cm.parameters := by
  have hobj : exportedObject m = ⟨true, exportMembers cs⟩ := by
    rw [exportedObject, hreg, exportLoop_members cs 0 _ hnames (by simp [JsonObject.createObject])]
    simp [JsonObject.createObject]
  have hkeys : ((exportMembers cs).map Prod.fst).Nodup :=
    (exportMembers_keys_sublist cs).nodup hnames
  have hfix : ∀ p ∈ m.cm.parameters, p.getMode ≠ ParameterMode.get →
      p.fromJson (exportedObject m) p.value = p.value := by
    intro p hp _
    rw [hreg] at hp
    obtain ⟨c, hc, rfl⟩ := List.mem_map.mp hp
    rw [hobj]
    by_cases hm : c.mode = ParameterMode.set
    · have hnot : c.name ∉ (exportMembers cs).map Prod.fst := by
        intro hmem
        obtain ⟨kv, hkv, hk⟩ := List.mem_map.mp hmem
        obtain ⟨c2, hc2, rfl⟩ := List.mem_map.mp hkv
        have hc2' := List.mem_filter.mp hc2
        have heq : c2 = c :=
          List.inj_on_of_nodup_map hnames hc2'.1 hc hk
        rw [heq] at hc2'
        simp [hm] at hc2'
      simp [ConfigParameter.toBase, JsonObject.containsKey, lookup_of_not_mem _ _ hnot]
    · have hmem : (c.name, c.encode c.value) ∈ exportMembers cs :=
        List.mem_map.mpr ⟨c, List.mem_filter.mpr ⟨hc, by simpa using hm⟩, rfl⟩
      simp [ConfigParameter.toBase, JsonObject.containsKey, JsonObject.get,
        lookup_of_mem _ _ _ hkeys hmem, hround c hc]
  have hsucc : (exportedObject m).success = true := by rw [hobj]
  simp only [handleRESTPutObject, hsucc, Bool.not_true, Bool.false_eq_true, if_false]
  simp [Machine.emit, writeConfig_cm, putLoop_fixed _ _ _ hfix]

/-- The amended C8 at the registry of the spec's example. -/
theorem export_import_noop_witness :
    (exampleRegistry.map (·.name)).Nodup ∧
    (handleRESTPutObject 132 (exportedObject (registryMachine exampleRegistry))
      (registryMachine exampleRegistry)).cm.parameters =
      (registryMachine exampleRegistry).cm.parameters :=
  ⟨by decide,
    export_import_noop 132 exampleRegistry (registryMachine exampleRegistry) rfl
      (by
        intro c hc
        simp only [exampleRegistry, List.mem_cons, List.mem_singleton, List.not_mem_nil,
          or_false] at hc
        rcases hc with rfl | rfl <;> intro x <;> rfl)
      (by decide)⟩

/-- C8 fails as stated: two parameters registered under the same name `x` with values `1` and
`2` each restore what their own `toJson` wrote, yet exporting and importing the exported
object turns the values into `2` and `2`. -/
theorem export_import_changes_duplicate_names :
    (∀ p ∈ (registryMachine duplicateNames).cm.parameters, ∀ (v w : Str) (obj : JsonObject),
      p.fromJson (p.toJson v obj) w = v) ∧
    (registryMachine duplicateNames).cm.parameters.map (·.value) = [lit "1", lit "2"] ∧
    (handleRESTPutObject 132 (exportedObject (registryMachine duplicateNames))
      (registryMachine duplicateNames)).cm.parameters.map (·.value) = [lit "2", lit "2"] := by
  refine ⟨?_, by decide, by decide⟩
  intro p hp v w obj
  obtain ⟨c, hc, rfl⟩ := List.mem_map.mp hp
  have hid : ∀ x, c.decode (c.encode x) = x := by
    simp only [duplicateNames, List.mem_cons, List.mem_singleton, List.not_mem_nil,
      or_false] at hc
    rcases hc with rfl | rfl <;> intro x <;> rfl
  exact ConfigParameter.roundtrip c hid v w obj

/-! ### Unmatched paths: `handleNotFound` -/

/-- C9: the code at the failing inputs.  `handleNotFound` redirects when the `Host` header
parses as an IP address and answers 404 otherwise, the reverse of the claim: the foreign host
`example.com` gets 404 with no redirect, and the device address `192.168.1.1` gets 302 with
`Location: http://192.168.1.1`. -/
theorem handleNotFound_inverted :
    newEvents (apMachine 0 0)
        (handleNotFound (formRequest [] [] [] (lit "example.com")) (apMachine 0 0)) =
      [Event.send 404 mimePlain [], Event.clientStop] ∧
    newEvents (apMachine 0 0)
        (handleNotFound (formRequest [] [] [] (lit "192.168.1.1")) (apMachine 0 0)) =
      [Event.sendHeader (lit "Location") (lit "http://192.168.1.1"),
       Event.send 302 mimePlain [], Event.clientStop] := by
  constructor <;> decide

end ConfigManager
